import Mathlib

/-!
Verification of the NVIGI core plugin framework
(`source/core/nvigi.framework/framework.cpp`) against its natural-language
specification.  The C++ source is shallowly embedded: pure functions become
Lean functions, the framework's mutable context (`FrameworkContext`) becomes
an explicit state record threaded through each operation, machine integers
become `Nat`/`Int`, and OS-level effects (dynamic-library load / unload) are
tracked in an explicit multiset of currently mapped modules.
-/

namespace NVIGI

/-- Result codes exchanged across the C ABI (`nvigi_result.h`).  Only the
identity of each code matters for the framework logic, so they are embedded
as an inductive type whose constructors mirror the `kResult*` constants. -/
inductive Result where
  | ok
  | invalidParameter
  | invalidState
  | missingInterface
  | missingDynamicLibraryDependency
  | driverOutOfDate
  | osOutOfDate
  | noSupportedHardwareFound
  | duplicatedPluginId
  | pluginOutOfDate
  | noPluginsFound
deriving DecidableEq, Repr, BEq

def kResultOk : Result := .ok
def kResultInvalidParameter : Result := .invalidParameter
def kResultInvalidState : Result := .invalidState
def kResultMissingInterface : Result := .missingInterface
def kResultMissingDynamicLibraryDependency : Result := .missingDynamicLibraryDependency
def kResultDriverOutOfDate : Result := .driverOutOfDate
def kResultOSOutOfDate : Result := .osOutOfDate
def kResultNoSupportedHardwareFound : Result := .noSupportedHardwareFound
def kResultDuplicatedPluginId : Result := .duplicatedPluginId
def kResultPluginOutOfDate : Result := .pluginOutOfDate
def kResultNoPluginsFound : Result := .noPluginsFound

/-- `nvigi::Version`: three `uint32_t` fields (`nvigi_version.h`). -/
structure Version where
  major : Nat
  minor : Nat
  patch : Nat
deriving DecidableEq, Repr

/-- Modelled from the spec: `Version::operator>` is declared in
`nvigi_version.h`, which is not part of the sources under `src/`; the spec
describes versions as semantic `major.minor.patch` values, so the order is
the lexicographic order on the three fields. -/
def Version.gt (a b : Version) : Bool :=
  decide (b.major < a.major) ||
  (a.major == b.major && decide (b.minor < a.minor)) ||
  (a.major == b.major && a.minor == b.minor && decide (b.patch < a.patch))

/-- Modelled from the spec: `VendorId` is declared in `nvigi_types.h`, which
is not under `src/`.  The spec only needs three shapes of requirement —
none / any / a specific vendor id — so vendors are embedded as `Nat` with
two distinguished sentinel values for `VendorId::eNone` and
`VendorId::eAny`. -/
abbrev VendorId := Nat

def vendorNone : VendorId := 0
def vendorAny : VendorId := 0xffffffff

/-- One detected adapter from `nvigi::system::SystemCaps` (`system.h`):
only the fields read by `checkPluginMinSpec` are embedded. -/
structure Adapter where
  vendor : VendorId
  architecture : Nat
deriving DecidableEq, Repr

/-- The detected system capabilities read by `checkPluginMinSpec`
(`ctx->caps`): driver version, OS version and the adapter list. -/
structure SystemCaps where
  driverVersion : Version
  osVersion : Version
  adapters : List Adapter
deriving DecidableEq, Repr

/-- The fields of `nvigi::plugin::PluginInfo` (`plugin.h`) that the
framework reads: identity, API version and the minimum-spec block. -/
structure PluginInfo where
  id : Nat
  pluginAPI : Version
  minOS : Version
  minDriver : Version
  minGPUArch : Nat
  requiredVendor : VendorId
deriving DecidableEq, Repr

/-- `checkPluginMinSpec` (framework.cpp, lines 208-253).  The `#ifdef
NVIGI_WINDOWS` guard around the OS check is embedded as the `isWindows`
flag; `ctx->apiVersion` and `ctx->caps` are passed explicitly.  The adapter
loop sets `foundAdapter` and breaks on the first hit, which is `List.any`
of the loop condition. -/
def checkPluginMinSpec (isWindows : Bool) (apiVersion : Version)
    (caps : SystemCaps) (info : PluginInfo) : Result :=
  if info.minDriver.gt caps.driverVersion then
    kResultDriverOutOfDate
  else if isWindows && info.minOS.gt caps.osVersion then
    kResultOSOutOfDate
  else if info.pluginAPI.gt apiVersion then
    kResultInvalidState
  else
    let foundAdapter := (info.requiredVendor == vendorNone) ||
      caps.adapters.any (fun adapter =>
        (info.requiredVendor == vendorAny) ||
        (adapter.vendor == info.requiredVendor &&
          decide (info.minGPUArch ≤ adapter.architecture)))
    if !foundAdapter then kResultNoSupportedHardwareFound
    else kResultOk

/-- The minimum-spec check as the claim words it: ordered checks with the
first failure winning, and the hardware requirement split into the
none / any / specific-vendor cases. -/
def checkMinSpecClaim (isWindows : Bool) (apiVersion : Version)
    (caps : SystemCaps) (info : PluginInfo) : Result :=
  if info.minDriver.gt caps.driverVersion then
    kResultDriverOutOfDate
  else if isWindows && info.minOS.gt caps.osVersion then
    kResultOSOutOfDate
  else if info.pluginAPI.gt apiVersion then
    kResultInvalidState
  else if info.requiredVendor = vendorNone then
    kResultOk
  else if info.requiredVendor = vendorAny then
    if caps.adapters.isEmpty then kResultNoSupportedHardwareFound else kResultOk
  else if ∃ a ∈ caps.adapters,
      a.vendor = info.requiredVendor ∧ info.minGPUArch ≤ a.architecture then
    kResultOk
  else
    kResultNoSupportedHardwareFound

/-- Claim C1: for every plugin descriptor and fixed system capabilities the
minimum-spec check is deterministic and applies its checks in a fixed order
with the first failure winning — driver, then OS (where OS versioning
applies), then required API version, then the hardware requirement, where
`requiredVendor == None` passes even with zero adapters, `Any` passes iff
at least one adapter is detected, and a specific vendor passes iff some
adapter has that vendor and architecture at least `minGPUArch`; otherwise
`Ok`.  Stated as: the embedded source function coincides with the claim's
case analysis on every input. -/
theorem checkPluginMinSpec_correct (isWindows : Bool) (apiVersion : Version)
    (caps : SystemCaps) (info : PluginInfo) :
    checkPluginMinSpec isWindows apiVersion caps info =
      checkMinSpecClaim isWindows apiVersion caps info := by
  unfold checkPluginMinSpec checkMinSpecClaim
  by_cases h1 : info.minDriver.gt caps.driverVersion = true
  · simp [h1]
  · simp only [h1, Bool.false_eq_true, if_false]
    by_cases h2 : (isWindows && info.minOS.gt caps.osVersion) = true
    · simp [h2]
    · simp only [h2, Bool.false_eq_true, if_false]
      by_cases h3 : info.pluginAPI.gt apiVersion = true
      · simp [h3]
      · simp only [h3, Bool.false_eq_true, if_false]
        by_cases hNone : info.requiredVendor = vendorNone
        · simp [hNone]
        · by_cases hAny : info.requiredVendor = vendorAny
          · rcases caps.adapters with _ | ⟨a, rest⟩ <;>
              simp [hNone, hAny, List.any_cons]
          · have hbNone : (info.requiredVendor == vendorNone) = false := by
              simp [hNone]
            have hbAny : ∀ a : Adapter,
                (info.requiredVendor == vendorAny) = false := fun _ => by
              simp [hAny]
            simp only [hbNone, Bool.false_or, if_neg hNone, if_neg hAny]
            by_cases hex : ∃ a ∈ caps.adapters,
                a.vendor = info.requiredVendor ∧ info.minGPUArch ≤ a.architecture
            · rw [if_pos hex]
              obtain ⟨a, ha, hv, harch⟩ := hex
              have : caps.adapters.any (fun adapter =>
                  (info.requiredVendor == vendorAny) ||
                  (adapter.vendor == info.requiredVendor &&
                    decide (info.minGPUArch ≤ adapter.architecture))) = true := by
                rw [List.any_eq_true]
                exact ⟨a, ha, by simp [hv, harch, hAny]⟩
              simp [this]
            · rw [if_neg hex]
              have : caps.adapters.any (fun adapter =>
                  (info.requiredVendor == vendorAny) ||
                  (adapter.vendor == info.requiredVendor &&
                    decide (info.minGPUArch ≤ adapter.architecture))) = false := by
                rw [Bool.eq_false_iff]
                intro hany
                rw [List.any_eq_true] at hany
                obtain ⟨a, ha, hp⟩ := hany
                simp only [hbAny a, Bool.false_or, Bool.and_eq_true, beq_iff_eq,
                  decide_eq_true_eq] at hp
                exact hex ⟨a, ha, hp.1, hp.2⟩
              simp [this]

/-! ## Interface registry and framework state -/

/-- `nvigi::framework::InterfaceFlagNotRefCounted` (framework.h, line 27). -/
def interfaceFlagNotRefCounted : Nat := 0x01

/-- One element of the per-identity interface list
(`InterfacesMap`, framework.cpp line 60): a `std::tuple<int32_t
refCount, BaseStructure* interfacePointer, InterfaceFlags flags>`.  The
pointer is embedded as an opaque `Nat` identifier `ptr` together with the
`type` tag its pointed-to `BaseStructure` carries. -/
structure InterfaceEntry where
  refCount : Int
  ptr : Nat
  type : Nat
  flags : Nat
deriving DecidableEq, Repr

/-- `bool counted = !(flags & InterfaceFlagNotRefCounted)` (framework.cpp,
lines 918, 1051). -/
def entryCounted (e : InterfaceEntry) : Bool :=
  (e.flags &&& interfaceFlagNotRefCounted) == 0

/-- Association-list embedding of `std::map` lookup (`find`). -/
def lookupA {α : Type} : List (Nat × α) → Nat → Option α
  | [], _ => none
  | (k', v) :: rest, k => if k' = k then some v else lookupA rest k

/-- `std::map::operator[]` read: the stored value, or the
default-constructed one. -/
def lookupD {α : Type} (m : List (Nat × α)) (k : Nat) (d : α) : α :=
  (lookupA m k).getD d

/-- `std::map` insert-or-assign (writing through `operator[]`). -/
def updateA {α : Type} : List (Nat × α) → Nat → α → List (Nat × α)
  | [], k, v => [(k, v)]
  | (k', v') :: rest, k, v =>
    if k' = k then (k, v) :: rest else (k', v') :: updateA rest k v

/-- `std::map::erase` by key (keys are unique, so erasing the first match
suffices). -/
def eraseA {α : Type} : List (Nat × α) → Nat → List (Nat × α)
  | [], _ => []
  | (k', v') :: rest, k =>
    if k' = k then rest else (k', v') :: eraseA rest k

abbrev InterfacesMap := List (Nat × List InterfaceEntry)

/-- `PluginInternals` plus the path stored with it in `ModulesMap`
(framework.cpp, lines 53-59): `hmod` is the loaded module handle (the
identifier of the mapped module) or `none` when unlinked; `hasDeregister`
records whether `pluginDeregister` is set. -/
structure ModuleRecord where
  path : Nat
  hmod : Option Nat
  hasDeregister : Bool
deriving DecidableEq, Repr

/-- The mutable framework context (`FrameworkContext`, framework.cpp lines
62-88) restricted to the state the claims are about, together with
`osLoaded`: the multiset of module identifiers currently mapped into the
process by `LoadLibraryExW` and not yet released by `FreeLibrary`.  The OS
loader is outside the program, so this field makes its observable state
explicit. -/
structure FrameworkState where
  modules : List (Nat × ModuleRecord)
  interfaces : InterfacesMap
  osLoaded : List Nat
deriving DecidableEq, Repr

/-- `addInterface` (framework.cpp, lines 102-112): reject when an entry
with the same `type` already exists for the identity, otherwise push a new
entry with `refCount` 0.  Returns the C++ `bool` and the updated map
(`ctx->interfaces`). -/
def addInterface (m : InterfacesMap) (feature : Nat) (ptr ty flags : Nat) :
    Bool × InterfacesMap :=
  let list := lookupD m feature []
  if list.any (fun e => e.type == ty) then
    (false, m)
  else
    (true, updateA m feature (list ++ [⟨0, ptr, ty, flags⟩]))

/-- The interface-scanning loop of `nvigiUnloadInterfaceImpl`
(framework.cpp, lines 1048-1076), returning the updated list and the three
loop flags: `found` (`result` was set to `Ok`), `deletedInterface` and
`remainingInterfaces`.  A matching counted entry is decremented in place;
a non-matching entry that is not counted or still has a positive count
marks `remainingInterfaces`. -/
def releaseLoop (ty : Nat) : List InterfaceEntry →
    List InterfaceEntry × Bool × Bool × Bool
  | [] => ([], false, false, false)
  | e :: rest =>
    let r := releaseLoop ty rest
    if e.type = ty then
      if entryCounted e then
        ({ e with refCount := e.refCount - 1 } :: r.1, true,
          (decide (e.refCount - 1 ≤ 0) || r.2.2.1), r.2.2.2)
      else
        (e :: r.1, true, r.2.2.1, r.2.2.2)
    else
      (e :: r.1, r.2.1, r.2.2.1,
        ((!entryCounted e || decide (e.refCount > 0)) || r.2.2.2))

/-- Outcome of a release call: the new state, the returned `Result`, and
whether the owning module's `deregister` entry point was invoked, its
handle freed, and the per-identity interface list erased. -/
structure ReleaseOutcome where
  st : FrameworkState
  result : Result
  deregistered : Bool
  unloaded : Bool
  erased : Bool
deriving DecidableEq, Repr

/-- `nvigiUnloadInterfaceImpl` (framework.cpp, lines 1032-1104).  The scan
updates counts in place; when a counted entry reached zero-or-below and no
other entry blocks, the module (if known and linked) is deregistered and
unloaded, the record unlinked and the whole per-identity list erased;
when the identity has no module record the call returns `MissingInterface`
(with the decrement already applied).  `unloadPlugin` is modelled as
succeeding. -/
def nvigiUnloadInterfaceImpl (st : FrameworkState) (feature ty : Nat) :
    ReleaseOutcome :=
  let list := lookupD st.interfaces feature []
  let r := releaseLoop ty list
  let newList := r.1
  let found := r.2.1
  let deleted := r.2.2.1
  let remaining := r.2.2.2
  let result := if found then kResultOk else kResultInvalidParameter
  if deleted && !remaining then
    match lookupA st.modules feature with
    | none =>
      { st := { st with interfaces := updateA st.interfaces feature newList },
        result := kResultMissingInterface,
        deregistered := false, unloaded := false, erased := false }
    | some mrec =>
      match mrec.hmod with
      | some h =>
        { st := { st with
            modules := updateA st.modules feature
              { mrec with hmod := none, hasDeregister := false },
            interfaces := eraseA st.interfaces feature,
            osLoaded := st.osLoaded.erase h },
          result := result,
          deregistered := true, unloaded := true, erased := true }
      | none =>
        { st := { st with interfaces := eraseA st.interfaces feature },
          result := result,
          deregistered := false, unloaded := false, erased := true }
  else
    { st := { st with interfaces := updateA st.interfaces feature newList },
      result := result,
      deregistered := false, unloaded := false, erased := false }

/-- The host-facing `nvigiUnloadInterface` (framework.cpp, lines
1121-1126): a null interface pointer short-circuits to `MissingInterface`;
otherwise the `type` tag of the pointed-to `BaseStructure` is passed to the
implementation.  A non-null argument is `some ty` where `ty` is that tag. -/
def nvigiUnloadInterface (st : FrameworkState) (feature : Nat)
    (iface : Option Nat) : ReleaseOutcome :=
  match iface with
  | none =>
    { st := st, result := kResultMissingInterface,
      deregistered := false, unloaded := false, erased := false }
  | some ty => nvigiUnloadInterfaceImpl st feature ty

/-! ## Association-list and loop lemmas -/

theorem lookupA_updateA_self {α : Type} (m : List (Nat × α)) (k : Nat) (v : α) :
    lookupA (updateA m k v) k = some v := by
  induction m with
  | nil => simp [updateA, lookupA]
  | cons p rest ih =>
    obtain ⟨k', v'⟩ := p
    by_cases h : k' = k <;> simp [updateA, lookupA, h, ih]

theorem lookupA_updateA_ne {α : Type} (m : List (Nat × α)) (k g : Nat) (v : α)
    (h : g ≠ k) : lookupA (updateA m k v) g = lookupA m g := by
  have h' : ¬ k = g := fun e => h e.symm
  induction m with
  | nil => simp [updateA, lookupA, h']
  | cons p rest ih =>
    obtain ⟨k', v'⟩ := p
    by_cases hk : k' = k
    · subst hk
      simp [updateA, lookupA, h']
    · simp [updateA, lookupA, hk, ih]

theorem releaseLoop_found (ty : Nat) (l : List InterfaceEntry) :
    (releaseLoop ty l).2.1 = true ↔ ∃ e ∈ l, e.type = ty := by
  induction l with
  | nil => simp [releaseLoop]
  | cons e rest ih =>
    by_cases h1 : e.type = ty
    · by_cases h2 : entryCounted e = true <;> simp [releaseLoop, h1, h2]
    · simp [releaseLoop, h1, ih]

theorem releaseLoop_deleted (ty : Nat) (l : List InterfaceEntry) :
    (releaseLoop ty l).2.2.1 = true ↔
      ∃ e ∈ l, e.type = ty ∧ entryCounted e = true ∧ e.refCount - 1 ≤ 0 := by
  induction l with
  | nil => simp [releaseLoop]
  | cons e rest ih =>
    by_cases h1 : e.type = ty
    · by_cases h2 : entryCounted e = true
      · simp [releaseLoop, h1, h2, ih]
      · simp [releaseLoop, h1, h2, ih]
    · simp [releaseLoop, h1, ih]

theorem releaseLoop_remaining (ty : Nat) (l : List InterfaceEntry) :
    (releaseLoop ty l).2.2.2 = true ↔
      ∃ e ∈ l, e.type ≠ ty ∧ (entryCounted e = false ∨ 0 < e.refCount) := by
  induction l with
  | nil => simp [releaseLoop]
  | cons e rest ih =>
    by_cases h1 : e.type = ty
    · by_cases h2 : entryCounted e = true <;> simp [releaseLoop, h1, h2, ih]
    · by_cases h2 : entryCounted e = true <;> simp [releaseLoop, h1, h2, ih]

/-! ## Claims about the registry and the release path -/

/-- Claim C6: adding an interface whose `InterfaceType` equals the type of
an entry already registered for that identity returns `false` and leaves
the registry unchanged; a first-time add of a new type appends an entry
(with count 0) and returns `true`, leaving other identities untouched, so
each identity registers each interface type at most once (distinctness of
types is preserved). -/
theorem addInterface_no_double (m : InterfacesMap) (feature ptr ty flags : Nat) :
    ((addInterface m feature ptr ty flags).1 = false ↔
      ∃ e ∈ lookupD m feature [], e.type = ty) ∧
    ((addInterface m feature ptr ty flags).1 = false →
      (addInterface m feature ptr ty flags).2 = m) ∧
    ((addInterface m feature ptr ty flags).1 = true →
      lookupD (addInterface m feature ptr ty flags).2 feature [] =
        lookupD m feature [] ++ [⟨0, ptr, ty, flags⟩] ∧
      ∀ g, g ≠ feature →
        lookupA (addInterface m feature ptr ty flags).2 g = lookupA m g) ∧
    (((lookupD m feature []).map (fun e => e.type)).Nodup →
      ((lookupD (addInterface m feature ptr ty flags).2 feature []).map
        (fun e => e.type)).Nodup) := by
  by_cases hdup : (lookupD m feature []).any (fun e => e.type == ty) = true
  · have hres : addInterface m feature ptr ty flags = (false, m) := by
      simp [addInterface, hdup]
    rw [List.any_eq_true] at hdup
    refine ⟨?_, fun _ => by rw [hres], fun habs => ?_, fun hnd => by rw [hres]; exact hnd⟩
    · rw [hres]
      simpa using hdup
    · rw [hres] at habs
      simp at habs
  · have hres : addInterface m feature ptr ty flags =
        (true, updateA m feature (lookupD m feature [] ++ [⟨0, ptr, ty, flags⟩])) := by
      simp [addInterface, hdup]
    have hnotin : ty ∉ (lookupD m feature []).map (fun e => e.type) := by
      intro hmem
      rw [List.mem_map] at hmem
      obtain ⟨e, he, hty⟩ := hmem
      exact hdup (List.any_eq_true.mpr ⟨e, he, by simp [hty]⟩)
    have hself : lookupD (addInterface m feature ptr ty flags).2 feature [] =
        lookupD m feature [] ++ [⟨0, ptr, ty, flags⟩] := by
      rw [hres]
      simp [lookupD, lookupA_updateA_self]
    refine ⟨?_, ?_, fun _ => ⟨hself, fun g hg => ?_⟩, fun hnd => ?_⟩
    · rw [hres]
      constructor
      · intro habs
        exact absurd habs (by simp)
      · intro hex
        obtain ⟨e, he, hty⟩ := hex
        exact absurd (List.any_eq_true.mpr ⟨e, he, by simp [hty]⟩) hdup
    · rw [hres]
      intro habs
      simp at habs
    · rw [hres]
      exact lookupA_updateA_ne m feature g _ hg
    · rw [hself]
      simp only [List.map_append, List.map_cons, List.map_nil]
      rw [List.nodup_append]
      exact ⟨hnd, List.nodup_singleton _, by
        intro a ha hb
        simp only [List.mem_singleton] at hb
        subst hb
        exact hnotin ha⟩

/-- Witness for C6 at a concrete registry: adding type 7 a second time for
identity 1 returns `false` and leaves the map unchanged. -/
theorem addInterface_no_double_witness :
    (addInterface [(1, [⟨0, 5, 7, 0⟩])] 1 6 7 0).1 = false ∧
    (addInterface [(1, [⟨0, 5, 7, 0⟩])] 1 6 7 0).2 = [(1, [⟨0, 5, 7, 0⟩])] :=
  have h := addInterface_no_double [(1, [⟨0, 5, 7, 0⟩])] 1 6 7 0
  have hfalse : (addInterface [(1, [⟨0, 5, 7, 0⟩])] 1 6 7 0).1 = false :=
    h.1.mpr ⟨⟨0, 5, 7, 0⟩, by decide, rfl⟩
  ⟨hfalse, h.2.1 hfalse⟩

/-- Claim C10: calling the host-facing `nvigiUnloadInterface` with a null
interface pointer returns `MissingInterface` (not `InvalidParameter`) and
leaves the module table and interface registry unchanged; the per-type
release logic is never reached (no deregister, unload or erase happens). -/
theorem unloadInterface_null_returns_missingInterface (st : FrameworkState)
    (feature : Nat) :
    nvigiUnloadInterface st feature none =
      { st := st, result := kResultMissingInterface,
        deregistered := false, unloaded := false, erased := false } ∧
    kResultMissingInterface ≠ kResultInvalidParameter :=
  ⟨rfl, by decide⟩

/-- Claim C2 (amended): for an identity with a non-empty interface list and
a linked module record, a release of one of its interface types triggers
deregistration and unload of the owning module and erasure of the whole
per-identity interface list if and only if the released entry is
reference-counted and its decremented count reached zero *or below*, and no
other entry in the list still has live references (every other entry is
reference-counted with a non-positive count). -/
theorem release_triggers_unload_iff (st : FrameworkState) (feature ty : Nat)
    (mrec : ModuleRecord) (hm : Nat)
    (hmodule : lookupA st.modules feature = some mrec)
    (hlinked : mrec.hmod = some hm)
    (_hnonempty : lookupD st.interfaces feature [] ≠ []) :
    ((nvigiUnloadInterfaceImpl st feature ty).deregistered = true ∧
     (nvigiUnloadInterfaceImpl st feature ty).unloaded = true ∧
     (nvigiUnloadInterfaceImpl st feature ty).erased = true) ↔
      ((∃ e ∈ lookupD st.interfaces feature [],
          e.type = ty ∧ entryCounted e = true ∧ e.refCount - 1 ≤ 0) ∧
       ∀ e ∈ lookupD st.interfaces feature [],
          e.type ≠ ty → entryCounted e = true ∧ e.refCount ≤ 0) := by
  have hdel := releaseLoop_deleted ty (lookupD st.interfaces feature [])
  have hrem := releaseLoop_remaining ty (lookupD st.interfaces feature [])
  by_cases hd : ((releaseLoop ty (lookupD st.interfaces feature [])).2.2.1 &&
      !(releaseLoop ty (lookupD st.interfaces feature [])).2.2.2) = true
  · rw [Bool.and_eq_true, Bool.not_eq_true'] at hd
    have hout : (nvigiUnloadInterfaceImpl st feature ty).deregistered = true ∧
        (nvigiUnloadInterfaceImpl st feature ty).unloaded = true ∧
        (nvigiUnloadInterfaceImpl st feature ty).erased = true := by
      simp [nvigiUnloadInterfaceImpl, hd.1, hd.2, hmodule, hlinked]
    rw [iff_true_intro hout.1, iff_true_intro hout.2.1, iff_true_intro hout.2.2]
    simp only [true_and, true_iff]
    constructor
    · exact hdel.mp hd.1
    · intro e he hne
      by_contra hcon
      have hblock : (releaseLoop ty (lookupD st.interfaces feature [])).2.2.2 = true := by
        rw [hrem]
        refine ⟨e, he, hne, ?_⟩
        rcases Bool.eq_false_or_eq_true (entryCounted e) with hc | hc
        · right
          by_contra hle
          exact hcon ⟨hc, Int.not_lt.mp hle⟩
        · exact Or.inl hc
      rw [hblock] at hd
      exact absurd hd.2 (by decide)
  · have hout : (nvigiUnloadInterfaceImpl st feature ty).deregistered = false := by
      simp only [nvigiUnloadInterfaceImpl]
      rw [if_neg (by simpa using hd)]
    constructor
    · intro habs
      rw [hout] at habs
      exact absurd habs.1 (by simp)
    · intro hrhs
      exfalso
      apply hd
      rw [Bool.and_eq_true, Bool.not_eq_true']
      refine ⟨hdel.mpr hrhs.1, ?_⟩
      rw [Bool.eq_false_iff]
      intro hrema
      obtain ⟨e, he, hne, hbad⟩ := hrem.mp hrema
      obtain ⟨hc, hle⟩ := hrhs.2 e he hne
      rcases hbad with hb | hb
      · rw [hc] at hb
        exact absurd hb (by decide)
      · exact absurd hle (Int.not_le.mpr hb)

/-- Witness for C2 at a concrete state: identity 1 has a single counted
entry with count 1 and a linked module; releasing its type satisfies the
right-hand side, so deregistration, unload and erasure are all triggered. -/
theorem release_triggers_unload_iff_witness :
    (nvigiUnloadInterfaceImpl
        ⟨[(1, ⟨5, some 9, true⟩)], [(1, [⟨1, 20, 7, 0⟩])], [9]⟩ 1 7).deregistered = true ∧
    (nvigiUnloadInterfaceImpl
        ⟨[(1, ⟨5, some 9, true⟩)], [(1, [⟨1, 20, 7, 0⟩])], [9]⟩ 1 7).unloaded = true ∧
    (nvigiUnloadInterfaceImpl
        ⟨[(1, ⟨5, some 9, true⟩)], [(1, [⟨1, 20, 7, 0⟩])], [9]⟩ 1 7).erased = true :=
  (release_triggers_unload_iff
      ⟨[(1, ⟨5, some 9, true⟩)], [(1, [⟨1, 20, 7, 0⟩])], [9]⟩ 1 7
      ⟨5, some 9, true⟩ 9 (by decide) rfl (by decide)).mpr (by decide)

/-- Counterexample to C2 as stated: identity 2 has two counted entries,
both with count 0 (as freshly registered interfaces have).  Releasing type
7 decrements its entry to -1 — which did not "reach zero" — yet
deregistration, unload and erasure are all triggered, because the code
tests `refCount <= 0` after the decrement, not `== 0`. -/
theorem release_triggers_unload_exact_zero_counterexample :
    ((nvigiUnloadInterfaceImpl
        ⟨[(2, ⟨3, some 3, true⟩)], [(2, [⟨0, 10, 7, 0⟩, ⟨0, 11, 8, 0⟩])], [3]⟩
        2 7).deregistered = true ∧
     (nvigiUnloadInterfaceImpl
        ⟨[(2, ⟨3, some 3, true⟩)], [(2, [⟨0, 10, 7, 0⟩, ⟨0, 11, 8, 0⟩])], [3]⟩
        2 7).unloaded = true ∧
     (nvigiUnloadInterfaceImpl
        ⟨[(2, ⟨3, some 3, true⟩)], [(2, [⟨0, 10, 7, 0⟩, ⟨0, 11, 8, 0⟩])], [3]⟩
        2 7).erased = true) ∧
    ¬ ∃ e ∈ [(⟨0, 10, 7, 0⟩ : InterfaceEntry), ⟨0, 11, 8, 0⟩],
        e.type = 7 ∧ entryCounted e = true ∧ e.refCount - 1 = 0 := by
  constructor
  · exact ⟨by decide, by decide, by decide⟩
  · decide

/-- Claim C3 (code bug): the reference count is not guarded against
underflow.  Identity 2 has a counted entry of type 7 at count 0 (never
acquired) and a counted entry of type 8 at count 1 (blocking unload).
Releasing type 7 returns `Ok` and stores count -1 for the type-7 entry —
the code's own `assert(refCount >= 0)` is violated and the plugin is not
unloaded, so a later release of type 7 would decrement further. -/
theorem release_refcount_underflow :
    (nvigiUnloadInterfaceImpl
        ⟨[(2, ⟨3, some 3, true⟩)], [(2, [⟨0, 10, 7, 0⟩, ⟨1, 11, 8, 0⟩])], [3]⟩
        2 7).result = kResultOk ∧
    lookupD (nvigiUnloadInterfaceImpl
        ⟨[(2, ⟨3, some 3, true⟩)], [(2, [⟨0, 10, 7, 0⟩, ⟨1, 11, 8, 0⟩])], [3]⟩
        2 7).st.interfaces 2 [] = [⟨-1, 10, 7, 0⟩, ⟨1, 11, 8, 0⟩] ∧
    (nvigiUnloadInterfaceImpl
        ⟨[(2, ⟨3, some 3, true⟩)], [(2, [⟨0, 10, 7, 0⟩, ⟨1, 11, 8, 0⟩])], [3]⟩
        2 7).unloaded = false := by
  refine ⟨by decide, by decide, by decide⟩

/-! ## Discovery (`enumeratePlugins`) and lazy registration (`registerPlugin`)

The dynamic loader, the plugin module's exported symbols and the plugin's
own code are outside the framework; their observable outcomes for one
module are collected in `ModuleEnv` / `Candidate` records and the
framework code is embedded as a function of them. -/

instance {ε α : Type} [DecidableEq ε] [DecidableEq α] :
    DecidableEq (Except ε α) := fun a b =>
  match a, b with
  | .ok x, .ok y =>
    if h : x = y then isTrue (by rw [h])
    else isFalse (fun hc => by cases hc; exact h rfl)
  | .error x, .error y =>
    if h : x = y then isTrue (by rw [h])
    else isFalse (fun hc => by cases hc; exact h rfl)
  | .ok _, .error _ => isFalse (fun hc => by cases hc)
  | .error _, .ok _ => isFalse (fun hc => by cases hc)

/-- Environmental outcomes of loading and starting one plugin module, as
observed by `registerPlugin` (framework.cpp, lines 496-597):
`system::validateDLL`, `LoadLibraryExW`, the `nvigiPluginGetFunction`
symbol lookup, the three entry points obtained through it, the plugin's
`getInfo` call (its `Result` or the reported `PluginInfo`), the plugin's
`register` call result, and the interfaces that `register` adds for the
feature through the framework's `addInterface` (triples of pointer, type
and flags). -/
structure ModuleEnv where
  validateOk : Bool
  loadOk : Bool
  getFunctionOk : Bool
  hasRegisterSym : Bool
  hasDeregisterSym : Bool
  hasGetInfoSym : Bool
  getInfoResult : Except Result PluginInfo
  registerResult : Result
  registerAdds : List (Nat × Nat × Nat)
deriving DecidableEq, Repr

/-- The framework-visible effect of the plugin's `register` entry point:
a sequence of `addInterface` calls for the registering feature. -/
def applyRegisterAdds (m : InterfacesMap) (feature : Nat)
    (adds : List (Nat × Nat × Nat)) : InterfacesMap :=
  adds.foldl (fun acc a => (addInterface acc feature a.1 a.2.1 a.2.2).2) m

/-- `registerPlugin` (framework.cpp, lines 496-597).  Mirrors the source's
failure paths: unknown feature, already linked (no-op `Ok`), failed DLL
validation (Windows), failed load, missing `nvigiPluginGetFunction`,
missing `register`/`deregister`/`getInfo` entry points, failed `getInfo`
call (NOTE: this path returns without unloading in the source), failed
minimum-spec re-check, failed `register` call, and no new interface added.
`NVIGI_FAILED` (declared in a header outside `src/`) is modelled from the
spec as "the `Result` is not `Ok`".  The loaded handle is identified with
the module's `path`. -/
def registerPlugin (isWindows : Bool) (apiVersion : Version)
    (caps : SystemCaps) (env : ModuleEnv) (st : FrameworkState)
    (feature : Nat) : FrameworkState × Result :=
  match lookupA st.modules feature with
  | none => (st, kResultMissingInterface)
  | some mrec =>
    match mrec.hmod with
    | some _ => (st, kResultOk)
    | none =>
      if isWindows && !env.validateOk then
        (st, kResultMissingDynamicLibraryDependency)
      else if !env.loadOk then
        (st, kResultMissingDynamicLibraryDependency)
      else
        let st1 := { st with osLoaded := mrec.path :: st.osLoaded }
        if !env.getFunctionOk then
          ({ st1 with osLoaded := st1.osLoaded.erase mrec.path },
            kResultInvalidState)
        else if !(env.hasRegisterSym && env.hasDeregisterSym &&
            env.hasGetInfoSym) then
          ({ st1 with osLoaded := st1.osLoaded.erase mrec.path },
            kResultInvalidState)
        else
          match env.getInfoResult with
          | .error _ => (st1, kResultInvalidState)
          | .ok info =>
            let cr := checkPluginMinSpec isWindows apiVersion caps info
            if cr ≠ kResultOk then
              ({ st1 with osLoaded := st1.osLoaded.erase mrec.path }, cr)
            else
              let currentInterfaceCount :=
                (lookupD st1.interfaces feature []).length
              let newIfs := applyRegisterAdds st1.interfaces feature env.registerAdds
              let st2 := { st1 with interfaces := newIfs }
              if env.registerResult ≠ kResultOk then
                ({ st2 with osLoaded := st2.osLoaded.erase mrec.path },
                  kResultInvalidState)
              else if (lookupD st2.interfaces feature []).length ≤
                  currentInterfaceCount then
                ({ st2 with osLoaded := st2.osLoaded.erase mrec.path },
                  kResultInvalidState)
              else
                let linked : ModuleRecord :=
                  { mrec with hmod := some mrec.path, hasDeregister := true }
                ({ st2 with modules := updateA st2.modules feature linked },
                  kResultOk)

/-- One candidate file seen by the discovery scan (`enumeratePlugins`,
framework.cpp lines 339-494): the directory entry's properties (extension
and `nvigi.plugin.` name prefix) and the environmental outcomes of the
transient load (`validateDLL`, `LoadLibraryExW`, `nvigiPluginGetFunction`,
`getInfo`, and the `isInterfaceSameOrNewerVersion` check on the reported
info). -/
structure Candidate where
  pathId : Nat
  isSharedLib : Bool
  namePrefixOk : Bool
  validateOk : Bool
  loadOk : Bool
  getFunctionOk : Bool
  getInfoResult : Except Result PluginInfo
  sameOrNewer : Bool
deriving DecidableEq, Repr

/-- Discovery-phase state: the framework state plus the `PluginSpec` report
entries pushed so far (path identifier and status; the status of a spec
whose candidate is skipped as "not the requested feature" keeps its
default, modelled as `Ok`) and the `numPluginsFound` counter. -/
structure EnumState where
  fw : FrameworkState
  specs : List (Nat × Result)
  found : Nat
deriving DecidableEq, Repr

/-- The body of the `enumeratePlugins` directory loop (framework.cpp,
lines 355-491) for one candidate.  NOTE: the source's `continue`
statements after a missing `nvigiPluginGetFunction` symbol (line 420) and
after a failed `getInfo` call (line 428) skip the `unloadPlugin` call at
line 490, so those two paths leave the transient handle in `osLoaded`. -/
def enumerateStep (isWindows validateDLLs : Bool) (apiVersion : Version)
    (caps : SystemCaps) (requestedFeature : Option Nat) (s : EnumState)
    (c : Candidate) : EnumState :=
  if c.isSharedLib && c.namePrefixOk then
    if isWindows && validateDLLs && !c.validateOk then
      { s with specs := s.specs ++ [(c.pathId, kResultMissingDynamicLibraryDependency)] }
    else if !c.loadOk then
      { s with specs := s.specs ++ [(c.pathId, kResultMissingDynamicLibraryDependency)] }
    else
      let fw1 := { s.fw with osLoaded := c.pathId :: s.fw.osLoaded }
      if !c.getFunctionOk then
        { s with fw := fw1, specs := s.specs ++ [(c.pathId, kResultInvalidState)] }
      else
        match c.getInfoResult with
        | .error err =>
          { s with fw := fw1, specs := s.specs ++ [(c.pathId, err)] }
        | .ok info =>
          if requestedFeature.isSome && requestedFeature != some info.id then
            { s with
              fw := { fw1 with osLoaded := fw1.osLoaded.erase c.pathId },
              specs := s.specs ++ [(c.pathId, kResultOk)] }
          else if !c.sameOrNewer then
            { s with
              fw := { fw1 with osLoaded := fw1.osLoaded.erase c.pathId },
              specs := s.specs ++ [(c.pathId, kResultPluginOutOfDate)] }
          else if (lookupA s.fw.modules info.id).isSome then
            { s with
              fw := { fw1 with osLoaded := fw1.osLoaded.erase c.pathId },
              specs := s.specs ++ [(c.pathId, kResultDuplicatedPluginId)] }
          else
            { s with
              fw := { fw1 with
                modules := updateA fw1.modules info.id ⟨c.pathId, none, false⟩,
                osLoaded := fw1.osLoaded.erase c.pathId },
              specs := s.specs ++
                [(c.pathId, checkPluginMinSpec isWindows apiVersion caps info)],
              found := s.found + 1 }
  else s

/-- `enumeratePlugins` over the candidates of one directory
(framework.cpp, lines 339-494). -/
def enumeratePluginsModel (isWindows validateDLLs : Bool)
    (apiVersion : Version) (caps : SystemCaps) (requestedFeature : Option Nat)
    (s : EnumState) (cands : List Candidate) : EnumState :=
  cands.foldl (enumerateStep isWindows validateDLLs apiVersion caps requestedFeature) s

/-- The tail of `nvigiInitImpl` relevant to claim C7 (framework.cpp, lines
797-856): enumerate the candidate modules of the validated search
directories into a fresh context, then fail with `NoPluginsFound` when the
module table is empty (`ctx->modules.empty()`, line 852); otherwise
initialization proceeds and returns `Ok`.  Path-validation and
duplicate-shared-library failures abort earlier and are outside this
fragment. -/
def nvigiInitEnumerate (isWindows validateDLLs : Bool) (apiVersion : Version)
    (caps : SystemCaps) (cands : List Candidate) : EnumState × Result :=
  let s := enumeratePluginsModel isWindows validateDLLs apiVersion caps none
    ⟨⟨[], [], []⟩, [], 0⟩ cands
  (s, if s.fw.modules.isEmpty then kResultNoPluginsFound else kResultOk)

/-- The conditions under which the discovery loop records a candidate in
`ctx->modules` (assuming its identity is not a duplicate): shared-library
extension and plugin name prefix, passing DLL validation (when performed),
successful load, present `nvigiPluginGetFunction`, successful `getInfo`,
and a same-or-newer interface version.  The minimum-spec check is *not*
among them. -/
def enumGate (isWindows validateDLLs : Bool) (c : Candidate) : Bool :=
  c.isSharedLib && c.namePrefixOk &&
  !(isWindows && validateDLLs && !c.validateOk) &&
  c.loadOk && c.getFunctionOk &&
  (match c.getInfoResult with | .ok _ => true | .error _ => false) &&
  c.sameOrNewer

theorem updateA_ne_nil {α : Type} (m : List (Nat × α)) (k : Nat) (v : α) :
    updateA m k v ≠ [] := by
  cases m with
  | nil => simp [updateA]
  | cons p rest =>
    obtain ⟨k', v'⟩ := p
    by_cases h : k' = k <;> simp [updateA, h]

theorem enumerateStep_modules_empty_iff (isWindows validateDLLs : Bool)
    (apiVersion : Version) (caps : SystemCaps) (s : EnumState) (c : Candidate)
    (h : s.fw.modules = []) :
    ((enumerateStep isWindows validateDLLs apiVersion caps none s c).fw.modules = []
      ↔ enumGate isWindows validateDLLs c = false) := by
  unfold enumerateStep enumGate
  by_cases h1 : (c.isSharedLib && c.namePrefixOk) = true
  · by_cases h2 : (isWindows && validateDLLs && !c.validateOk) = true
    · simp [h1, h2, h]
    · by_cases h3 : c.loadOk = true
      · by_cases h4 : c.getFunctionOk = true
        · rcases hgi : c.getInfoResult with err | info
          · simp [h1, h2, h3, h4, hgi, h]
          · by_cases h5 : c.sameOrNewer = true
            · simp [h1, h2, h3, h4, hgi, h5, h, lookupA, updateA]
            · simp [h1, h2, h3, h4, hgi, h5, h]
        · simp [h1, h2, h3, h4, h]
      · simp [h1, h2, h3, h]
  · simp [h1, h]

theorem enumerateStep_modules_ne (isWindows validateDLLs : Bool)
    (apiVersion : Version) (caps : SystemCaps) (requestedFeature : Option Nat)
    (s : EnumState) (c : Candidate) (h : s.fw.modules ≠ []) :
    (enumerateStep isWindows validateDLLs apiVersion caps requestedFeature s c).fw.modules
      ≠ [] := by
  unfold enumerateStep
  by_cases h1 : (c.isSharedLib && c.namePrefixOk) = true
  · by_cases h2 : (isWindows && validateDLLs && !c.validateOk) = true
    · simpa [h1, h2] using h
    · by_cases h3 : c.loadOk = true
      · by_cases h4 : c.getFunctionOk = true
        · rcases hgi : c.getInfoResult with err | info
          · simpa [h1, h2, h3, h4, hgi] using h
          · by_cases hreq : (requestedFeature.isSome && requestedFeature != some info.id) = true
            · simpa [h1, h2, h3, h4, hgi, hreq] using h
            · by_cases h5 : c.sameOrNewer = true
              · by_cases hdup : (lookupA s.fw.modules info.id).isSome = true
                · simpa [h1, h2, h3, h4, hgi, hreq, h5, hdup] using h
                · simp [h1, h2, h3, h4, hgi, hreq, h5, hdup, updateA_ne_nil]
              · simpa [h1, h2, h3, h4, hgi, hreq, h5] using h
        · simpa [h1, h2, h3, h4] using h
      · simpa [h1, h2, h3] using h
  · simpa [h1] using h

theorem enumeratePluginsModel_modules_ne (isWindows validateDLLs : Bool)
    (apiVersion : Version) (caps : SystemCaps) (requestedFeature : Option Nat)
    (cands : List Candidate) (s : EnumState) (h : s.fw.modules ≠ []) :
    (enumeratePluginsModel isWindows validateDLLs apiVersion caps
        requestedFeature s cands).fw.modules ≠ [] := by
  induction cands generalizing s with
  | nil => simpa [enumeratePluginsModel] using h
  | cons c rest ih =>
    rw [enumeratePluginsModel, List.foldl_cons]
    exact ih _ (enumerateStep_modules_ne isWindows validateDLLs apiVersion caps
      requestedFeature s c h)

theorem enumeratePluginsModel_modules_empty_iff (isWindows validateDLLs : Bool)
    (apiVersion : Version) (caps : SystemCaps) (cands : List Candidate)
    (s : EnumState) (h : s.fw.modules = []) :
    ((enumeratePluginsModel isWindows validateDLLs apiVersion caps none
        s cands).fw.modules = [] ↔
      ∀ c ∈ cands, enumGate isWindows validateDLLs c = false) := by
  induction cands generalizing s with
  | nil => simpa [enumeratePluginsModel] using h
  | cons c rest ih =>
    rw [enumeratePluginsModel, List.foldl_cons]
    by_cases hg : enumGate isWindows validateDLLs c = false
    · have hstep : (enumerateStep isWindows validateDLLs apiVersion caps none
          s c).fw.modules = [] :=
        (enumerateStep_modules_empty_iff isWindows validateDLLs apiVersion caps
          s c h).mpr hg
      have hrest := ih (enumerateStep isWindows validateDLLs apiVersion caps none s c) hstep
      rw [enumeratePluginsModel] at hrest
      rw [hrest]
      simp [hg]
    · have hstep : (enumerateStep isWindows validateDLLs apiVersion caps none
          s c).fw.modules ≠ [] := fun he =>
        hg ((enumerateStep_modules_empty_iff isWindows validateDLLs apiVersion
          caps s c h).mp he)
      have hne := enumeratePluginsModel_modules_ne isWindows validateDLLs
        apiVersion caps none rest _ hstep
      rw [enumeratePluginsModel] at hne
      exact iff_of_false hne
        (fun hall => hg (hall c (List.mem_cons_self c rest)))

/-- Claim C7 (amended): `initialize` fails with `NoPluginsFound` iff zero
candidates were recorded in the module table, and a candidate is recorded
exactly when it passes the discovery gauntlet — shared-library extension
and plugin name prefix, DLL validation (when performed), successful load,
present `nvigiPluginGetFunction` symbol, successful `getInfo`, and a
same-or-newer interface version.  Passing the minimum-spec check is *not*
required: a min-spec-rejected candidate is still recorded (its rejection
only lands in the report's status) and it alone suffices for `initialize`
not to return `NoPluginsFound`. -/
theorem init_noPluginsFound_iff (isWindows validateDLLs : Bool)
    (apiVersion : Version) (caps : SystemCaps) (cands : List Candidate) :
    ((nvigiInitEnumerate isWindows validateDLLs apiVersion caps cands).2 =
        kResultNoPluginsFound ↔
      ∀ c ∈ cands, enumGate isWindows validateDLLs c = false) := by
  unfold nvigiInitEnumerate
  dsimp only
  rw [← enumeratePluginsModel_modules_empty_iff isWindows validateDLLs
    apiVersion caps cands ⟨⟨[], [], []⟩, [], 0⟩ rfl]
  by_cases hm : (enumeratePluginsModel isWindows validateDLLs apiVersion caps
      none ⟨⟨[], [], []⟩, [], 0⟩ cands).fw.modules = []
  · simp [hm]
  · have hb : (enumeratePluginsModel isWindows validateDLLs apiVersion caps
        none ⟨⟨[], [], []⟩, [], 0⟩ cands).fw.modules.isEmpty = false := by
      rw [Bool.eq_false_iff]
      intro hab
      exact hm (List.isEmpty_iff.mp hab)
    rw [hb]
    exact iff_of_false (by decide) hm

/-- Counterexample to C7 as stated: a single candidate that loads and
reports correctly but fails the minimum-spec check (it requires *any*
adapter while zero adapters are detected).  Zero candidates are "accepted"
in the claim's sense, yet `initialize` does not return `NoPluginsFound` —
it returns `Ok` and the candidate's rejection appears only as the
`NoSupportedHardwareFound` status in its report entry. -/
theorem init_minSpecRejected_counterexample :
    ((nvigiInitEnumerate true true ⟨1, 0, 0⟩ ⟨⟨0, 0, 0⟩, ⟨0, 0, 0⟩, []⟩
        [⟨11, true, true, true, true, true,
          .ok ⟨1, ⟨0, 0, 0⟩, ⟨0, 0, 0⟩, ⟨0, 0, 0⟩, 0, vendorAny⟩, true⟩]).2 =
      kResultOk) ∧
    checkPluginMinSpec true ⟨1, 0, 0⟩ ⟨⟨0, 0, 0⟩, ⟨0, 0, 0⟩, []⟩
        ⟨1, ⟨0, 0, 0⟩, ⟨0, 0, 0⟩, ⟨0, 0, 0⟩, 0, vendorAny⟩ =
      kResultNoSupportedHardwareFound ∧
    ((nvigiInitEnumerate true true ⟨1, 0, 0⟩ ⟨⟨0, 0, 0⟩, ⟨0, 0, 0⟩, []⟩
        [⟨11, true, true, true, true, true,
          .ok ⟨1, ⟨0, 0, 0⟩, ⟨0, 0, 0⟩, ⟨0, 0, 0⟩, 0, vendorAny⟩, true⟩]).1.specs =
      [(11, kResultNoSupportedHardwareFound)]) := by
  refine ⟨by decide, by decide, by decide⟩

/-- Claim C4 (code bug): discovery does *not* unload every transiently
loaded module.  Two candidates are scanned: one whose
`nvigiPluginGetFunction` symbol is missing and one whose `getInfo` call
fails.  Both take the source's `continue` paths that bypass the
`unloadPlugin` call at the end of the loop body, so after enumeration both
module handles are still mapped into the process (and their report entries
carry the rejection statuses). -/
theorem enumerate_leaks_on_getFunction_and_getInfo_failure :
    ((enumeratePluginsModel true true ⟨1, 0, 0⟩ ⟨⟨0, 0, 0⟩, ⟨0, 0, 0⟩, []⟩ none
        ⟨⟨[], [], []⟩, [], 0⟩
        [⟨11, true, true, true, true, false,
            .ok ⟨1, ⟨0, 0, 0⟩, ⟨0, 0, 0⟩, ⟨0, 0, 0⟩, 0, 0⟩, true⟩,
         ⟨12, true, true, true, true, true, .error kResultInvalidParameter,
            true⟩]).fw.osLoaded = [12, 11]) ∧
    ((enumeratePluginsModel true true ⟨1, 0, 0⟩ ⟨⟨0, 0, 0⟩, ⟨0, 0, 0⟩, []⟩ none
        ⟨⟨[], [], []⟩, [], 0⟩
        [⟨11, true, true, true, true, false,
            .ok ⟨1, ⟨0, 0, 0⟩, ⟨0, 0, 0⟩, ⟨0, 0, 0⟩, 0, 0⟩, true⟩,
         ⟨12, true, true, true, true, true, .error kResultInvalidParameter,
            true⟩]).specs =
      [(11, kResultInvalidState), (12, kResultInvalidParameter)]) := by
  refine ⟨by decide, by decide⟩

/-- Claim C5 (code bug): `registerPlugin` is not all-or-nothing.  For a
known, unlinked plugin whose module loads and resolves all entry points
but whose `getInfo` call fails, the source returns `InvalidState` without
calling `FreeLibrary`: the module (path 7) stays mapped into the process
while its module record remains unlinked — a half-registered state. -/
theorem registerPlugin_getInfo_failure_leaks :
    ((registerPlugin true ⟨1, 0, 0⟩ ⟨⟨0, 0, 0⟩, ⟨0, 0, 0⟩, []⟩
        ⟨true, true, true, true, true, true, .error kResultInvalidParameter,
          kResultOk, []⟩
        ⟨[(4, ⟨7, none, false⟩)], [], []⟩ 4).2 = kResultInvalidState) ∧
    ((registerPlugin true ⟨1, 0, 0⟩ ⟨⟨0, 0, 0⟩, ⟨0, 0, 0⟩, []⟩
        ⟨true, true, true, true, true, true, .error kResultInvalidParameter,
          kResultOk, []⟩
        ⟨[(4, ⟨7, none, false⟩)], [], []⟩ 4).1.osLoaded = [7]) ∧
    (lookupA (registerPlugin true ⟨1, 0, 0⟩ ⟨⟨0, 0, 0⟩, ⟨0, 0, 0⟩, []⟩
        ⟨true, true, true, true, true, true, .error kResultInvalidParameter,
          kResultOk, []⟩
        ⟨[(4, ⟨7, none, false⟩)], [], []⟩ 4).1.modules 4 =
      some ⟨7, none, false⟩) := by
  refine ⟨by decide, by decide, by decide⟩

/-! ## SDK version token decoding (`nvigiInitImpl`) -/

/-- The SDK-version handling of `nvigiInitImpl` (framework.cpp, lines
655-667): accept the 64-bit token when `(sdkVersion & kSDKVersionMagic) ==
kSDKVersionMagic` and decode the host SDK version from bits 48-63, 32-47
and 16-31; otherwise return `InvalidParameter`.  Modelled from the spec:
`kSDKVersionMagic` is declared in `nvigi.h`, which is not under `src/` —
the spec only calls it "a fixed magic constant" packed into the token's
low 16 bits, so the constant is taken as the parameter `magic`. -/
def decodeSdkVersion (magic sdkVersion : Nat) : Except Result Version :=
  if sdkVersion &&& magic == magic then
    .ok ⟨(sdkVersion >>> 48) &&& 0xffff, (sdkVersion >>> 32) &&& 0xffff,
          (sdkVersion >>> 16) &&& 0xffff⟩
  else
    .error kResultInvalidParameter

/-- Claim C8 (amended): for every 64-bit token and every value of the
magic constant, the token is accepted exactly when every set bit of the
magic constant is also set in the token (the masked test
`(token AND magic) == magic`, which is weaker than equality of the token's
low 16-bit magic field with the constant whenever the constant is not an
all-ones field); on acceptance the host SDK version is decoded as
`major = bits 48-63`, `minor = bits 32-47`, `patch = bits 16-31`, and on
rejection the result is `InvalidParameter`. -/
theorem decodeSdkVersion_spec (magic v : Nat) :
    ((v &&& magic = magic) ↔
      ∀ i, magic.testBit i = true → v.testBit i = true) ∧
    (v &&& magic = magic →
      decodeSdkVersion magic v =
        .ok ⟨v / 2 ^ 48 % 2 ^ 16, v / 2 ^ 32 % 2 ^ 16, v / 2 ^ 16 % 2 ^ 16⟩) ∧
    (v &&& magic ≠ magic →
      decodeSdkVersion magic v = .error kResultInvalidParameter) := by
  have hmask : ∀ x : Nat, x &&& 0xffff = x % 2 ^ 16 := by
    intro x
    have h16 : (0xffff : Nat) = 2 ^ 16 - 1 := by norm_num
    rw [h16]
    exact Nat.and_pow_two_sub_one_eq_mod x 16
  refine ⟨⟨fun h i hi => ?_, fun h => ?_⟩, fun h => ?_, fun h => ?_⟩
  · have := congrArg (fun x => x.testBit i) h
    simp only [Nat.testBit_and, hi, Bool.and_true] at this
    exact this
  · refine Nat.eq_of_testBit_eq fun i => ?_
    rw [Nat.testBit_and]
    cases hm : magic.testBit i with
    | false => simp
    | true => simp [h i hm]
  · rw [decodeSdkVersion, if_pos (by simpa using h)]
    simp only [Nat.shiftRight_eq_div_pow, hmask]
  · rw [decodeSdkVersion, if_neg (by simpa using h)]

/-- Witness for C8 at concrete values: with magic constant `0xfedc`, the
token `0x0001000200030000 ||| 0xfedc` is accepted and decodes to version
1.2.3, while the token `0` is rejected with `InvalidParameter`. -/
theorem decodeSdkVersion_spec_witness :
    decodeSdkVersion 0xfedc 0x000100020003fedc =
      .ok ⟨1, 2, 3⟩ ∧
    decodeSdkVersion 0xfedc 0 = .error kResultInvalidParameter :=
  ⟨by
    have h := (decodeSdkVersion_spec 0xfedc 0x000100020003fedc).2.1 (by decide)
    rw [h]
    decide,
   (decodeSdkVersion_spec 0xfedc 0).2.2 (by decide)⟩

/-- Counterexample to C8 as stated: with any magic constant whose 16-bit
field is not all ones — here the representative value `0xfedc` — the token
`0xffff` has magic field `0xffff ≠ 0xfedc`, yet it is accepted (and
decodes to version 0.0.0), because the source tests
`(token & magic) == magic` rather than equality of the magic field with
the constant. -/
theorem decodeSdkVersion_field_equality_counterexample :
    decodeSdkVersion 0xfedc 0xffff = .ok ⟨0, 0, 0⟩ ∧
    (0xffff : Nat) % 2 ^ 16 ≠ 0xfedc := by
  refine ⟨by decide, by decide⟩

/-! ## Interface acquisition (`nvigiLoadInterfaceImpl`) -/

/-- The first-match scan of `nvigiLoadInterfaceImpl` (framework.cpp, lines
1011-1027): walk the identity's list, and at the first entry of the
requested type increment its count when reference-counted, write the
entry's pointer through the out pointer and break.  Returns the updated
list and the written pointer (`none` when no entry matched and the out
pointer was left untouched). -/
def loadLoop (ty : Nat) : List InterfaceEntry → List InterfaceEntry × Option Nat
  | [] => ([], none)
  | e :: rest =>
    if e.type = ty then
      if entryCounted e then
        ({ e with refCount := e.refCount + 1 } :: rest, some e.ptr)
      else
        (e :: rest, some e.ptr)
    else
      let r := loadLoop ty rest
      (e :: r.1, r.2)

/-- The scan-and-return tail of `nvigiLoadInterfaceImpl` (framework.cpp,
lines 1011-1029): run the loop over `ctx->interfaces[feature]`, leave
`*_interface` at its incoming value when nothing matched, and return
`Ok` iff the pointed-to value is non-null afterwards. -/
def loadScan (st : FrameworkState) (feature ty : Nat) (initOut : Option Nat) :
    FrameworkState × Option Nat × Result :=
  let r := loadLoop ty (lookupD st.interfaces feature [])
  let out := match r.2 with
    | some p => some p
    | none => initOut
  ({ st with interfaces := updateA st.interfaces feature r.1 }, out,
    if out.isSome then kResultOk else kResultMissingInterface)

/-- `nvigiLoadInterfaceImpl` (framework.cpp, lines 963-1030) for a live
framework (`ctx` non-null), a non-null `_interface` argument and a null
`utf8PathToPlugin` (so the late-enumeration branch at lines 978-1006 is
skipped).  `initOut` is the value `*_interface` holds on entry.  When no
interfaces are registered for the identity, `registerPlugin` is attempted
first; `NVIGI_CHECK` (declared in a header outside `src/`) is modelled
from the spec — a lazy-link failure's `Result` is returned synchronously
to the caller.  Then the list (as left by the registration attempt) is
scanned. -/
def nvigiLoadInterfaceImpl (isWindows : Bool) (apiVersion : Version)
    (caps : SystemCaps) (env : ModuleEnv) (st : FrameworkState)
    (feature ty : Nat) (initOut : Option Nat) :
    FrameworkState × Option Nat × Result :=
  if (lookupD st.interfaces feature []).isEmpty then
    let rp := registerPlugin isWindows apiVersion caps env st feature
    if rp.2 ≠ kResultOk then
      (rp.1, initOut, rp.2)
    else
      loadScan rp.1 feature ty initOut
  else
    loadScan st feature ty initOut

theorem loadLoop_none_iff (ty : Nat) (l : List InterfaceEntry) :
    (loadLoop ty l).2 = none ↔ ∀ e ∈ l, e.type ≠ ty := by
  induction l with
  | nil => simp [loadLoop]
  | cons e rest ih =>
    by_cases h1 : e.type = ty
    · by_cases h2 : entryCounted e = true <;> simp [loadLoop, h1, h2]
    · simp [loadLoop, h1, ih]

theorem loadLoop_some_mem (ty : Nat) (l : List InterfaceEntry) (p : Nat)
    (h : (loadLoop ty l).2 = some p) :
    ∃ e ∈ (loadLoop ty l).1, e.type = ty ∧ e.ptr = p := by
  induction l with
  | nil => simp [loadLoop] at h
  | cons e rest ih =>
    by_cases h1 : e.type = ty
    · by_cases h2 : entryCounted e = true
      · simp only [loadLoop, if_pos h1, if_pos h2, Option.some.injEq] at h ⊢
        exact ⟨{ e with refCount := e.refCount + 1 }, List.mem_cons_self _ _,
          h1, h⟩
      · simp only [loadLoop, if_pos h1, if_neg h2, Option.some.injEq] at h ⊢
        exact ⟨e, List.mem_cons_self _ _, h1, h⟩
    · simp only [loadLoop, if_neg h1] at h ⊢
      obtain ⟨e', he', hty, hp⟩ := ih h
      exact ⟨e', List.mem_cons_of_mem _ he', hty, hp⟩

theorem loadLoop_types (ty : Nat) (l : List InterfaceEntry) :
    ((loadLoop ty l).1).map (fun e => e.type) = l.map (fun e => e.type) := by
  induction l with
  | nil => simp [loadLoop]
  | cons e rest ih =>
    by_cases h1 : e.type = ty
    · by_cases h2 : entryCounted e = true <;> simp [loadLoop, h1, h2]
    · simp [loadLoop, h1, ih]

theorem loadLoop_exists_iff (ty : Nat) (l : List InterfaceEntry) :
    (∃ e ∈ (loadLoop ty l).1, e.type = ty) ↔ ∃ e ∈ l, e.type = ty := by
  have h := loadLoop_types ty l
  constructor
  · intro ⟨e, he, hty⟩
    have : ty ∈ l.map (fun e => e.type) := by
      rw [← h]
      exact List.mem_map.mpr ⟨e, he, hty⟩
    obtain ⟨e', he', hty'⟩ := List.mem_map.mp this
    exact ⟨e', he', hty'⟩
  · intro ⟨e, he, hty⟩
    have : ty ∈ ((loadLoop ty l).1).map (fun e => e.type) := by
      rw [h]
      exact List.mem_map.mpr ⟨e, he, hty⟩
    obtain ⟨e', he', hty'⟩ := List.mem_map.mp this
    exact ⟨e', he', hty'⟩

theorem loadScan_spec (st : FrameworkState) (feature ty : Nat)
    (initOut : Option Nat) :
    ((loadScan st feature ty initOut).2.2 = kResultOk ↔
      ((loadScan st feature ty initOut).2.1).isSome = true) ∧
    ((loadScan st feature ty initOut).2.1 ≠ initOut →
      ∃ e ∈ lookupD (loadScan st feature ty initOut).1.interfaces feature [],
        e.type = ty ∧ (loadScan st feature ty initOut).2.1 = some e.ptr) ∧
    (initOut = none →
      ((loadScan st feature ty initOut).2.2 = kResultMissingInterface ↔
        ¬ ∃ e ∈ lookupD (loadScan st feature ty initOut).1.interfaces feature [],
            e.type = ty)) ∧
    ((initOut.isSome = true ∧
      ¬ ∃ e ∈ lookupD (loadScan st feature ty initOut).1.interfaces feature [],
          e.type = ty) →
      (loadScan st feature ty initOut).2.2 = kResultOk ∧
      (loadScan st feature ty initOut).2.1 = initOut) := by
  have hlist : lookupD (loadScan st feature ty initOut).1.interfaces feature [] =
      (loadLoop ty (lookupD st.interfaces feature [])).1 := by
    unfold loadScan
    simp [lookupD, lookupA_updateA_self]
  rcases hr : (loadLoop ty (lookupD st.interfaces feature [])).2 with _ | p
  · have hout : (loadScan st feature ty initOut).2.1 = initOut := by
      unfold loadScan
      dsimp only
      rw [hr]
    have hnoentry : ¬ ∃ e ∈ lookupD (loadScan st feature ty initOut).1.interfaces
        feature [], e.type = ty := by
      rw [hlist]
      intro hex
      obtain ⟨e, he, hty⟩ := (loadLoop_exists_iff ty _).mp hex
      exact (loadLoop_none_iff ty _).mp hr e he hty
    have hres : (loadScan st feature ty initOut).2.2 =
        if initOut.isSome then kResultOk else kResultMissingInterface := by
      unfold loadScan
      dsimp only
      rw [hr]
    refine ⟨?_, fun habs => absurd hout (fun _ => habs hout), fun hnone => ?_, fun hpre => ?_⟩
    · rw [hres, hout]
      cases hio : initOut.isSome with
      | true => simp [hio]
      | false => simp [hio, kResultMissingInterface, kResultOk]
    · subst hnone
      rw [hres]
      simp [hnoentry]
    · rw [hres, hpre.1]
      exact ⟨rfl, hout⟩
  · have hout : (loadScan st feature ty initOut).2.1 = some p := by
      unfold loadScan
      dsimp only
      rw [hr]
    have hmem := loadLoop_some_mem ty (lookupD st.interfaces feature []) p hr
    have hres : (loadScan st feature ty initOut).2.2 = kResultOk := by
      unfold loadScan
      dsimp only
      rw [hr]
      simp
    have hentry : ∃ e ∈ lookupD (loadScan st feature ty initOut).1.interfaces
        feature [], e.type = ty ∧ (loadScan st feature ty initOut).2.1 = some e.ptr := by
      rw [hlist, hout]
      obtain ⟨e, he, hty, hp⟩ := hmem
      exact ⟨e, he, hty, by rw [hp]⟩
    refine ⟨?_, fun _ => hentry, fun hnone => ?_, fun hpre => ?_⟩
    · rw [hres, hout]
      simp
    · rw [hres]
      constructor
      · intro habs
        exact absurd habs (by decide)
      · intro hne
        exfalso
        obtain ⟨e, he, hty, _⟩ := hentry
        exact hne ⟨e, he, hty⟩
    · exfalso
      obtain ⟨e, he, hty, _⟩ := hentry
      exact hpre.2 ⟨e, he, hty⟩

/-- Claim C9 (amended): when the framework is initialized, the out pointer
is non-null and the lazy-registration attempt (taken only when the
identity's list is empty) does not fail, `loadInterface` writes through
its out pointer only when an entry of the requested type exists, decides
its `Result` from the pointed-to value after the lookup (`Ok` iff
`*outInterface` is non-null afterwards), returns `MissingInterface` with a
null-initialized out pointer exactly when no entry of the requested type
exists after the attempt, and returns `Ok` leaving a stale non-null value
untouched when no matching type is registered.  When the registration
attempt fails, its error `Result` is returned directly instead. -/
theorem loadInterface_result_from_out_pointer (isWindows : Bool)
    (apiVersion : Version) (caps : SystemCaps) (env : ModuleEnv)
    (st : FrameworkState) (feature ty : Nat) (initOut : Option Nat)
    (hready : (lookupD st.interfaces feature []).isEmpty = false ∨
      (registerPlugin isWindows apiVersion caps env st feature).2 = kResultOk) :
    ((nvigiLoadInterfaceImpl isWindows apiVersion caps env st feature ty
        initOut).2.2 = kResultOk ↔
      ((nvigiLoadInterfaceImpl isWindows apiVersion caps env st feature ty
        initOut).2.1).isSome = true) ∧
    ((nvigiLoadInterfaceImpl isWindows apiVersion caps env st feature ty
        initOut).2.1 ≠ initOut →
      ∃ e ∈ lookupD (nvigiLoadInterfaceImpl isWindows apiVersion caps env st
          feature ty initOut).1.interfaces feature [],
        e.type = ty ∧
        (nvigiLoadInterfaceImpl isWindows apiVersion caps env st feature ty
          initOut).2.1 = some e.ptr) ∧
    (initOut = none →
      ((nvigiLoadInterfaceImpl isWindows apiVersion caps env st feature ty
          initOut).2.2 = kResultMissingInterface ↔
        ¬ ∃ e ∈ lookupD (nvigiLoadInterfaceImpl isWindows apiVersion caps env
            st feature ty initOut).1.interfaces feature [], e.type = ty)) ∧
    ((initOut.isSome = true ∧
      ¬ ∃ e ∈ lookupD (nvigiLoadInterfaceImpl isWindows apiVersion caps env st
          feature ty initOut).1.interfaces feature [], e.type = ty) →
      (nvigiLoadInterfaceImpl isWindows apiVersion caps env st feature ty
        initOut).2.2 = kResultOk ∧
      (nvigiLoadInterfaceImpl isWindows apiVersion caps env st feature ty
        initOut).2.1 = initOut) := by
  by_cases hemp : (lookupD st.interfaces feature []).isEmpty = true
  · have hreg : (registerPlugin isWindows apiVersion caps env st feature).2 =
        kResultOk := by
      rcases hready with hne | hok
      · rw [hemp] at hne
        exact absurd hne (by decide)
      · exact hok
    have heq : nvigiLoadInterfaceImpl isWindows apiVersion caps env st feature
        ty initOut = loadScan (registerPlugin isWindows apiVersion caps env st
          feature).1 feature ty initOut := by
      unfold nvigiLoadInterfaceImpl
      rw [if_pos hemp]
      simp [hreg]
    rw [heq]
    exact loadScan_spec _ feature ty initOut
  · have heq : nvigiLoadInterfaceImpl isWindows apiVersion caps env st feature
        ty initOut = loadScan st feature ty initOut := by
      unfold nvigiLoadInterfaceImpl
      rw [if_neg hemp]
    rw [heq]
    exact loadScan_spec st feature ty initOut

/-- Witness for C9 at a concrete state: identity 1 already has a single
counted entry of type 7; requesting the unregistered type 9 with an out
pointer that initially holds the stale value 99 returns `Ok` and leaves
the stale value untouched. -/
theorem loadInterface_result_from_out_pointer_witness :
    (nvigiLoadInterfaceImpl false ⟨1, 0, 0⟩ ⟨⟨0, 0, 0⟩, ⟨0, 0, 0⟩, []⟩
        ⟨true, true, true, true, true, true, .error kResultInvalidState,
          kResultOk, []⟩
        ⟨[], [(1, [⟨0, 20, 7, 0⟩])], []⟩ 1 9 (some 99)).2.2 = kResultOk ∧
    (nvigiLoadInterfaceImpl false ⟨1, 0, 0⟩ ⟨⟨0, 0, 0⟩, ⟨0, 0, 0⟩, []⟩
        ⟨true, true, true, true, true, true, .error kResultInvalidState,
          kResultOk, []⟩
        ⟨[], [(1, [⟨0, 20, 7, 0⟩])], []⟩ 1 9 (some 99)).2.1 = some 99 :=
  (loadInterface_result_from_out_pointer false ⟨1, 0, 0⟩
      ⟨⟨0, 0, 0⟩, ⟨0, 0, 0⟩, []⟩
      ⟨true, true, true, true, true, true, .error kResultInvalidState,
        kResultOk, []⟩
      ⟨[], [(1, [⟨0, 20, 7, 0⟩])], []⟩ 1 9 (some 99)
      (Or.inl (by decide))).2.2.2 ⟨by decide, by decide⟩

/-- Counterexample to C9 as stated: identity 5 is known but unlinked and
its module fails to load during the lazy-registration attempt.  No entry
of the requested type exists after the attempt and the out pointer stays
null, yet the call returns `MissingDynamicLibraryDependency` — not
`MissingInterface` as the claim's "exactly when" requires. -/
theorem loadInterface_regFailure_counterexample :
    (nvigiLoadInterfaceImpl true ⟨1, 0, 0⟩ ⟨⟨0, 0, 0⟩, ⟨0, 0, 0⟩, []⟩
        ⟨true, false, true, true, true, true,
          .ok ⟨1, ⟨0, 0, 0⟩, ⟨0, 0, 0⟩, ⟨0, 0, 0⟩, 0, 0⟩, kResultOk, []⟩
        ⟨[(5, ⟨9, none, false⟩)], [], []⟩ 5 7 none).2.2 =
      kResultMissingDynamicLibraryDependency ∧
    (nvigiLoadInterfaceImpl true ⟨1, 0, 0⟩ ⟨⟨0, 0, 0⟩, ⟨0, 0, 0⟩, []⟩
        ⟨true, false, true, true, true, true,
          .ok ⟨1, ⟨0, 0, 0⟩, ⟨0, 0, 0⟩, ⟨0, 0, 0⟩, 0, 0⟩, kResultOk, []⟩
        ⟨[(5, ⟨9, none, false⟩)], [], []⟩ 5 7 none).2.1 = none ∧
    lookupD (nvigiLoadInterfaceImpl true ⟨1, 0, 0⟩ ⟨⟨0, 0, 0⟩, ⟨0, 0, 0⟩, []⟩
        ⟨true, false, true, true, true, true,
          .ok ⟨1, ⟨0, 0, 0⟩, ⟨0, 0, 0⟩, ⟨0, 0, 0⟩, 0, 0⟩, kResultOk, []⟩
        ⟨[(5, ⟨9, none, false⟩)], [], []⟩ 5 7 none).1.interfaces 5 [] = [] ∧
    kResultMissingDynamicLibraryDependency ≠ kResultMissingInterface := by
  refine ⟨by decide, by decide, by decide, by decide⟩

end NVIGI
